import Mathlib

/-!
# Verification of the ODL tomography geometry core (`odl/tomo/geometry/geometry.py`)

Shallow embedding of the `Geometry`, `DivergentBeamGeometry` and
`AxisOrientedGeometry` classes.  Python floats are modelled as real numbers,
numpy 1-D arrays as `List ℝ`, numpy 2-D arrays as `List (List ℝ)` (and, for
the 3×3 rotation matrices of `AxisOrientedGeometry`, as
`Matrix (Fin 3) (Fin 3) ℝ`).  Methods that can raise are modelled as
`Except Err`-valued functions, with one `Err` constructor per Python
exception class they raise.

The collaborator classes `IntervalProd` (from `odl.set.domain`) and
`TensorGrid`/`RegularGrid` (from `odl.discr.grid`) are not part of the
source under verification; they are modelled from the spec's description of
the `ParameterDomain`/`SamplingGrid` interfaces (membership test,
containment of a grid, coordinate-vector access, append).
-/

noncomputable section

/-- The Python exception kinds raised by the modelled code. -/
inductive Err where
  | typeError
  | valueError
  | notImplemented
  | attributeError
  deriving DecidableEq

/-- Modelled from the spec: an `IntervalProd` (`odl.set.domain`), a product
of closed 1-D intervals, one `(lower, upper)` pair per axis. -/
structure IntervalProd where
  bounds : List (ℝ × ℝ)

/-- `IntervalProd.ndim`, the number of axes. -/
def IntervalProd.ndim (I : IntervalProd) : ℕ := I.bounds.length

/-- Modelled from the spec: the scalar membership test
`x in I` of a 1-D `IntervalProd` (`ParameterDomain.contains`): the domain is
one-dimensional and the value lies between its bounds. -/
def memS (x : ℝ) (I : IntervalProd) : Prop :=
  I.bounds.length = 1 ∧ ∀ b ∈ I.bounds, b.1 ≤ x ∧ x ≤ b.2

instance (x : ℝ) (I : IntervalProd) : Decidable (memS x I) := by
  unfold memS; infer_instance

/-- Modelled from the spec: a `TensorGrid` (`odl.discr.grid`), given by its
coordinate vectors, with a tag recording whether it is the `RegularGrid`
subtype. -/
structure Grid where
  coords : List (List ℝ)
  regular : Bool

/-- Modelled from the spec: `grid1.append(grid2)` joins the coordinate
vectors; the result is regular only when both operands are regular. -/
def Grid.append (g1 g2 : Grid) : Grid :=
  ⟨g1.coords ++ g2.coords, g1.regular && g2.regular⟩

/-- `isinstance(g, RegularGrid)` for an optional grid (`None` is not a
`RegularGrid`). -/
def optRegular : Option Grid → Bool
  | none => false
  | some g => g.regular

/-- Modelled from the spec: `I.contains_set(g)`
(`ParameterDomain.containsSet`): the grid has one coordinate vector per axis
and every grid coordinate lies between the bounds of its axis. -/
def containsSet (I : IntervalProd) (g : Grid) : Prop :=
  I.bounds.length = g.coords.length ∧
    ∀ p ∈ I.bounds.zip g.coords, ∀ x ∈ p.2, p.1.1 ≤ x ∧ x ≤ p.1.2

instance (I : IntervalProd) (g : Grid) : Decidable (containsSet I g) := by
  unfold containsSet; infer_instance

/-- Componentwise difference of numpy 1-D arrays. -/
def vsub (u v : List ℝ) : List ℝ := List.zipWith (fun a b => a - b) u v

/-- Componentwise sum of numpy 1-D arrays. -/
def vadd (u v : List ℝ) : List ℝ := List.zipWith (fun a b => a + b) u v

/-- `M.dot(v)` for a 2-D array `M` and 1-D array `v`. -/
def matVec (M : List (List ℝ)) (v : List ℝ) : List ℝ :=
  M.map fun row => (List.zipWith (fun a b => a * b) row v).sum

/-- `np.linalg.norm(v)`: the Euclidean norm of a 1-D array. -/
def euclNorm (v : List ℝ) : ℝ := Real.sqrt ((v.map fun t => t ^ 2).sum)

/-- Numpy broadcasting division `A / b` of a 2-D array `A` by a 1-D array
`b`, for the shapes reachable from `det_to_src`: a length-1 `b` is broadcast
over every entry; otherwise every row of `A` must have exactly `b.length`
entries, and entry `(i, j)` is divided by `b[j]`.  Incompatible shapes are a
broadcast error (`none`). -/
def broadcastDiv (A : List (List ℝ)) (b : List ℝ) : Option (List (List ℝ)) :=
  if b.length = 1 then
    some (A.map fun row => row.map fun t => t / b.headD 0)
  else if A.all fun row => row.length == b.length then
    some (A.map fun row => List.zipWith (fun t n => t / n) row b)
  else none

/-- The statement `vec /= np.linalg.norm(vec, axis=-1)` of
`DivergentBeamGeometry.det_to_src` (line 323), applied to a batched
`(N, ndim)` array `vec` of displacement vectors (one row per motion/detector
parameter pair): with `axis=-1` the norms form a 1-D length-`N` array, which
numpy broadcasting then divides into `vec` without a kept trailing axis. -/
def normalizeStep (vec : List (List ℝ)) : Option (List (List ℝ)) :=
  broadcastDiv vec (vec.map euclNorm)

/-- The `Detector` collaborator interface used by the core: a parameter
domain, an optional sampling grid and the surface map. -/
structure Detector where
  params : IntervalProd
  param_grid : Option Grid
  surface : ℝ → List ℝ

/-- The abstract `Geometry` base class: its stored data together with the
abstract methods (`det_refpoint`, `rotation_matrix`) a concrete subclass
must supply. -/
structure Geometry where
  ndim : ℕ
  motion_params : IntervalProd
  motion_grid : Option Grid
  detector : Detector
  det_refpoint : ℝ → List ℝ
  rotation_matrix : ℝ → List (List ℝ)

/-- `Geometry.det_params` (line 183): `self.detector.params`. -/
def Geometry.det_params (g : Geometry) : IntervalProd := g.detector.params

/-- `Geometry.det_grid` (line 188): `self.detector.param_grid`. -/
def Geometry.det_grid (g : Geometry) : Option Grid := g.detector.param_grid

/-- `Geometry.det_to_src` (lines 110–129): the base-class implementation
bodily consists of `raise NotImplementedError`. -/
def Geometry.det_to_src (g : Geometry) (mpar dpar : ℝ)
    (normalized : Bool := true) : Except Err (List ℝ) :=
  Except.error Err.notImplemented

/-- `Geometry.det_point_position` (lines 131–150):
`np.asarray(self.det_refpoint(mpar) + self.rotation_matrix(mpar).dot(self.detector.surface(dpar)))`.
The body contains no validation and no raise statement. -/
def Geometry.det_point_position (g : Geometry) (mpar dpar : ℝ) : List ℝ :=
  vadd (g.det_refpoint mpar) (matVec (g.rotation_matrix mpar) (g.detector.surface dpar))

/-- `Geometry.grid` (lines 204–212): prefers the regular motion grid when
both grids are regular, otherwise rebuilds a tensor grid from
`motion_grid.coord_vectors` (an attribute error when `motion_grid` is
`None`), then appends `det_grid` (an attribute error inside the
collaborator `append` when `det_grid` is `None`). -/
def Geometry.grid (g : Geometry) : Except Err Grid :=
  match g.motion_grid with
  | none =>
      -- `isinstance(None, RegularGrid)` is false, so the else-branch runs
      -- and `None.coord_vectors` fails
      Except.error Err.attributeError
  | some mg =>
      let base : Grid :=
        if mg.regular && optRegular g.det_grid then mg else ⟨mg.coords, false⟩
      match g.det_grid with
      | none => Except.error Err.attributeError
      | some dg => Except.ok (base.append dg)

/-- `DivergentBeamGeometry`: a `Geometry` together with the abstract
`src_position` method. -/
structure DivergentBeamGeometry extends Geometry where
  src_position : ℝ → List ℝ

/-- `DivergentBeamGeometry.det_to_src` (lines 288–325): validates both
parameters, computes `src_position(mpar) - det_point_position(mpar, dpar)`
and optionally normalizes (the scalar-parameter case, where the norm is a
scalar). -/
def DivergentBeamGeometry.det_to_src (g : DivergentBeamGeometry)
    (mpar dpar : ℝ) (normalized : Bool := true) : Except Err (List ℝ) :=
  if memS mpar g.motion_params then
    if memS dpar g.toGeometry.det_params then
      let vec := vsub (g.src_position mpar) (g.toGeometry.det_point_position mpar dpar)
      Except.ok (if normalized then vec.map fun t => t / euclNorm vec else vec)
    else Except.error Err.valueError
  else Except.error Err.valueError

/-- The fields of a `DivergentBeamGeometry` object under construction:
`none`/`false` means the field has not been assigned yet. -/
structure ConstrState where
  motionParamsF : Option IntervalProd := none
  motionGridF : Option (Option Grid) := none
  detectorF : Option Detector := none
  ndimF : Option ℕ := none
  cacheF : Bool := false

/-- `DivergentBeamGeometry.__init__` (lines 226–256), with the object state
at return/raise time made explicit.  The angle-interval check runs first;
then `_motion_params`, `_motion_grid` and `_detector` are assigned; then the
optional grid is validated (the `isinstance(agrid, TensorGrid)` check holds
by typing in this model); finally `super().__init__` assigns `_ndim` and
`_implementation_cache`. -/
def divBeamInit (ndim : ℕ) (angle_intvl : IntervalProd) (detector : Detector)
    (agrid : Option Grid) : Except Err Unit × ConstrState :=
  if angle_intvl.ndim = 1 then
    let st : ConstrState :=
      { motionParamsF := some angle_intvl, motionGridF := some agrid,
        detectorF := some detector }
    match agrid with
    | some gr =>
        if containsSet angle_intvl gr then
          (Except.ok (), { st with ndimF := some ndim, cacheF := true })
        else (Except.error Err.valueError, st)
    | none => (Except.ok (), { st with ndimF := some ndim, cacheF := true })
  else (Except.error Err.typeError, {})

/-- `AxisOrientedGeometry`: the mixin's only stored datum, the axis array
set by its constructor. -/
structure AxisOrientedGeometry where
  axis : List ℝ

/-- `AxisOrientedGeometry.__init__` (lines 331–344):
`self._axis = np.asarray(axis, dtype=float) / np.linalg.norm(axis)`, then a
`ValueError` when `self.axis.shape != (3,)` — the shape check runs on the
already-normalized array. -/
def axisOrientedInit (axis : List ℝ) : Except Err AxisOrientedGeometry :=
  let ax := axis.map fun t => t / euclNorm axis
  if ax.length = 3 then Except.ok ⟨ax⟩ else Except.error Err.valueError

/-- `axis[0]`, `axis[1]`, `axis[2]` indexing of the stored axis array. -/
def aFun (l : List ℝ) : Fin 3 → ℝ := fun i => l.getD i 0

/-- The `cross_mat` array of `rotation_matrix` (lines 390–392). -/
def cross_mat (a : Fin 3 → ℝ) : Matrix (Fin 3) (Fin 3) ℝ :=
  !![0, -(a 2), a 1; a 2, 0, -(a 0); -(a 1), a 0, 0]

/-- The `dy_mat` array of `rotation_matrix` (line 393): `np.outer(axis, axis)`. -/
def dy_mat (a : Fin 3 → ℝ) : Matrix (Fin 3) (Fin 3) ℝ :=
  Matrix.of fun i j => a i * a j

/-- The `id_mat` array of `rotation_matrix` (line 394): `np.eye(3)`. -/
def id_mat : Matrix (Fin 3) (Fin 3) ℝ :=
  !![1, 0, 0; 0, 1, 0; 0, 0, 1]

/-- The return expression of `rotation_matrix` (line 398):
`cos_ang * id_mat + (1. - cos_ang) * dy_mat + sin_ang * cross_mat`. -/
def rodrigues (a : Fin 3 → ℝ) (angle : ℝ) : Matrix (Fin 3) (Fin 3) ℝ :=
  Real.cos angle • id_mat + (1 - Real.cos angle) • dy_mat a +
    Real.sin angle • cross_mat a

/-- `AxisOrientedGeometry.rotation_matrix` (lines 357–398): validates the
angle against the composing geometry's `motion_params`, then builds the
Rodrigues matrix from the stored axis. -/
def AxisOrientedGeometry.rotation_matrix (g : AxisOrientedGeometry)
    (motion_params : IntervalProd) (angle : ℝ) :
    Except Err (Matrix (Fin 3) (Fin 3) ℝ) :=
  if memS angle motion_params then Except.ok (rodrigues (aFun g.axis) angle)
  else Except.error Err.valueError

/-! ## Helper lemmas -/

theorem sqrt_val (x y : ℝ) (hy : 0 ≤ y) (h : y ^ 2 = x) : Real.sqrt x = y := by
  rw [← h]; exact Real.sqrt_sq hy

theorem euclNorm_pair (a b : ℝ) : euclNorm [a, b] = Real.sqrt (a ^ 2 + b ^ 2) := by
  simp [euclNorm]

theorem euclNorm_triple (a b c : ℝ) :
    euclNorm [a, b, c] = Real.sqrt (a ^ 2 + b ^ 2 + c ^ 2) := by
  simp [euclNorm]; ring_nf

theorem sumSq_nonneg (v : List ℝ) : 0 ≤ (v.map fun t => t ^ 2).sum := by
  induction v with
  | nil => simp
  | cons x xs ih => simp only [List.map_cons, List.sum_cons]; positivity

theorem euclNorm_nonneg (v : List ℝ) : 0 ≤ euclNorm v := Real.sqrt_nonneg _

theorem euclNorm_sq (v : List ℝ) : euclNorm v ^ 2 = (v.map fun t => t ^ 2).sum :=
  Real.sq_sqrt (sumSq_nonneg v)

theorem sumSq_map_div (v : List ℝ) (n : ℝ) :
    ((v.map fun t => t / n).map fun t => t ^ 2).sum =
      ((v.map fun t => t ^ 2).sum) / n ^ 2 := by
  induction v with
  | nil => simp
  | cons x xs ih =>
    simp only [List.map_cons, List.sum_cons, List.map_map] at ih ⊢
    rw [ih, div_pow, add_div]

/-- Normalizing a list by its own nonzero Euclidean norm yields a unit
vector. -/
theorem euclNorm_normalize (v : List ℝ) (hv : euclNorm v ≠ 0) :
    euclNorm (v.map fun t => t / euclNorm v) = 1 := by
  unfold euclNorm at *
  rw [sumSq_map_div, Real.sq_sqrt (sumSq_nonneg v),
    div_self (fun h => hv (by rw [h, Real.sqrt_zero])), Real.sqrt_one]

theorem sqrt_ne_one (x : ℝ) (hx : 0 ≤ x) (h : x ≠ 1) : Real.sqrt x ≠ 1 := by
  intro hs
  apply h
  have h2 := congrArg (fun t => t ^ 2) hs
  simpa [Real.sq_sqrt hx] using h2

/-! ## Concrete fixtures for witnesses -/

/-- A concrete 1-D detector on `[-1, 1]`, with no sampling grid, whose
surface lives on the line at height 1. -/
def det0 : Detector := ⟨⟨[(-1, 1)]⟩, none, fun d => [d, 1]⟩

/-- A concrete 2-D geometry over the angle interval `[0, 4]`, with a fixed
reference point and the identity rotation. -/
def geo0 : Geometry :=
  ⟨2, ⟨[(0, 4)]⟩, none, det0, fun _ => [0, 2], fun _ => [[1, 0], [0, 1]]⟩

/-- `geo0` extended with a fixed source position, as a concrete
`DivergentBeamGeometry`. -/
def div0 : DivergentBeamGeometry := ⟨geo0, fun _ => [0, -2]⟩

/-- A concrete 1-D angle interval `[0, 1]`. -/
def I01 : IntervalProd := ⟨[(0, 1)]⟩

/-- A concrete 1-D grid with the single point `2`, not contained in `I01`. -/
def gBad : Grid := ⟨[[2]], false⟩

/-- A concrete 1-D motion-parameter interval `[0, 7]`. -/
def mp0 : IntervalProd := ⟨[(0, 7)]⟩

/-- A concrete axis-oriented mixin instance with stored axis `(0, 0, 1)`. -/
def ax001 : AxisOrientedGeometry := ⟨[0, 0, 1]⟩

/-! ## Claims -/

/-- Claim C9: for every input, `det_to_src` invoked on the base `Geometry`
class (with no overriding implementation) fails with a NotImplemented
condition and never returns a value. -/
theorem base_det_to_src_not_implemented (g : Geometry) (mpar dpar : ℝ)
    (normalized : Bool) :
    g.det_to_src mpar dpar normalized = Except.error Err.notImplemented ∧
    (g.det_to_src mpar dpar normalized).isOk = false :=
  ⟨rfl, rfl⟩

/-- Claim C8: `Geometry.det_point_position(mpar, dpar)` equals
`det_refpoint(mpar) + rotation_matrix(mpar) · detector.surface(dpar)`, and
it performs no domain validation: the same value is returned even for an
out-of-domain motion parameter (the method is total and raise-free). -/
theorem det_point_position_spec (g : Geometry) (mpar dpar : ℝ) :
    g.det_point_position mpar dpar =
      vadd (g.det_refpoint mpar)
        (matVec (g.rotation_matrix mpar) (g.detector.surface dpar)) ∧
    (¬ memS mpar g.motion_params →
      g.det_point_position mpar dpar =
        vadd (g.det_refpoint mpar)
          (matVec (g.rotation_matrix mpar) (g.detector.surface dpar))) :=
  ⟨rfl, fun _ => rfl⟩

theorem det_point_position_spec_witness :
    geo0.det_point_position 99 0 = [0, 3] := by
  have hout : ¬ memS 99 geo0.motion_params := by
    simp [memS, geo0]; norm_num
  rw [(det_point_position_spec geo0 99 0).2 hout]
  simp [geo0, det0, vadd, matVec]
  norm_num

/-- Claim C10: reading the joined `grid` property fails whenever the motion
grid or the detector grid is absent, and returns a value exactly when both
are present. -/
theorem grid_requires_both_grids (g : Geometry) :
    (g.grid).isOk = true ↔ g.motion_grid.isSome ∧ g.det_grid.isSome := by
  unfold Geometry.grid
  cases hm : g.motion_grid <;> cases hd : g.det_grid <;>
    simp [hm, hd, Except.isOk, Except.toBool]

/-- Claim C2: `DivergentBeamGeometry.det_to_src` returns a value exactly
when both parameters are in their domains, and that value is
`src_position(mpar) - det_point_position(mpar, dpar)`, normalized when
requested. -/
theorem div_det_to_src_spec (g : DivergentBeamGeometry) (mpar dpar : ℝ)
    (normalized : Bool) :
    ((g.det_to_src mpar dpar normalized).isOk = true ↔
        memS mpar g.motion_params ∧ memS dpar g.toGeometry.det_params) ∧
    (¬ (memS mpar g.motion_params ∧ memS dpar g.toGeometry.det_params) →
      g.det_to_src mpar dpar normalized = Except.error Err.valueError) ∧
    (memS mpar g.motion_params → memS dpar g.toGeometry.det_params →
      g.det_to_src mpar dpar normalized =
        Except.ok
          (let vec := vsub (g.src_position mpar)
            (g.toGeometry.det_point_position mpar dpar)
           if normalized then vec.map fun t => t / euclNorm vec else vec)) := by
  by_cases h1 : memS mpar g.motion_params <;>
    by_cases h2 : memS dpar g.toGeometry.det_params <;>
      simp [DivergentBeamGeometry.det_to_src, h1, h2, Except.isOk, Except.toBool]

theorem div_det_to_src_spec_witness :
    div0.det_to_src 1 0 false = Except.ok [0, -5] := by
  have h1 : memS 1 div0.motion_params := by
    norm_num [memS, div0, geo0]
  have h2 : memS 0 div0.toGeometry.det_params := by
    norm_num [memS, div0, geo0, det0, Geometry.det_params]
  rw [(div_det_to_src_spec div0 1 0 false).2.2 h1 h2]
  simp [div0, geo0, det0, vsub, vadd, matVec, Geometry.det_point_position]
  norm_num

/-- Claim C5: the `DivergentBeamGeometry` constructor fails exactly when the
angle domain is not 1-dimensional (a `TypeError`) or a supplied grid is not
contained in it (a `ValueError`); otherwise construction succeeds.  (The
`isinstance` checks on the interval and the grid hold by typing in this
model.) -/
theorem div_beam_init_validates (ndim : ℕ) (angle_intvl : IntervalProd)
    (detector : Detector) (agrid : Option Grid) :
    ((divBeamInit ndim angle_intvl detector agrid).1 = Except.ok () ↔
        angle_intvl.ndim = 1 ∧ ∀ gr, agrid = some gr → containsSet angle_intvl gr) ∧
    (angle_intvl.ndim ≠ 1 →
      (divBeamInit ndim angle_intvl detector agrid).1 = Except.error Err.typeError) ∧
    (angle_intvl.ndim = 1 → ∀ gr, agrid = some gr → ¬ containsSet angle_intvl gr →
      (divBeamInit ndim angle_intvl detector agrid).1 = Except.error Err.valueError) := by
  unfold divBeamInit
  by_cases h1 : angle_intvl.ndim = 1
  · cases agrid with
    | none => simp [h1]
    | some gr => by_cases hc : containsSet angle_intvl gr <;> simp [h1, hc]
  · simp [h1]

theorem div_beam_init_validates_witness :
    (divBeamInit 2 ⟨[((0:ℝ), 1), (2, 3)]⟩ det0 none).1 = Except.error Err.typeError :=
  (div_beam_init_validates 2 ⟨[((0:ℝ), 1), (2, 3)]⟩ det0 none).2.1
    (by simp [IntervalProd.ndim])

/-- Claim C6 counterexample: when the constructor fails because the supplied
grid (single point `2`) is not contained in the angle interval `[0, 1]`,
the fields `_motion_params`, `_motion_grid` and `_detector` of the object
under construction have already been assigned — the failure is not free of
partial mutation. -/
theorem div_beam_init_mutation_cex :
    (divBeamInit 2 I01 det0 (some gBad)).1 = Except.error Err.valueError ∧
    (divBeamInit 2 I01 det0 (some gBad)).2.motionParamsF = some I01 ∧
    (divBeamInit 2 I01 det0 (some gBad)).2.motionGridF = some (some gBad) ∧
    (divBeamInit 2 I01 det0 (some gBad)).2.detectorF = some det0 := by
  have hc : ¬ containsSet I01 gBad := by
    simp [containsSet, I01, gBad]
  have h1 : I01.ndim = 1 := by simp [I01, IntervalProd.ndim]
  refine ⟨?_, ?_, ?_, ?_⟩ <;> simp [divBeamInit, h1, hc]

/-- Claim C6 amended: a failure at the angle-domain check leaves every field
unassigned, but a failure at the grid-containment check happens after
`_motion_params`, `_motion_grid` and `_detector` have been assigned (only
`_ndim` and `_implementation_cache` are still unset). -/
theorem div_beam_init_mutation_spec (ndim : ℕ) (angle_intvl : IntervalProd)
    (detector : Detector) (agrid : Option Grid) :
    (angle_intvl.ndim ≠ 1 → (divBeamInit ndim angle_intvl detector agrid).2 = {}) ∧
    (angle_intvl.ndim = 1 → ∀ gr, agrid = some gr → ¬ containsSet angle_intvl gr →
      (divBeamInit ndim angle_intvl detector agrid).2 =
        { motionParamsF := some angle_intvl, motionGridF := some agrid,
          detectorF := some detector, ndimF := none, cacheF := false }) := by
  constructor
  · intro h; simp [divBeamInit, h]
  · intro h gr hgr hc; subst hgr; simp [divBeamInit, h, hc]

theorem div_beam_init_mutation_spec_witness :
    (divBeamInit 2 I01 det0 (some gBad)).2 =
      { motionParamsF := some I01, motionGridF := some (some gBad),
        detectorF := some det0, ndimF := none, cacheF := false } :=
  (div_beam_init_mutation_spec 2 I01 det0 (some gBad)).2
    (by simp [I01, IntervalProd.ndim]) gBad rfl
    (by simp [containsSet, I01, gBad])

/-- Claim C7 counterexample: the zero vector has exactly 3 components, so
the constructor accepts it, but the stored axis (the zero vector divided by
its zero norm) has Euclidean norm 0, not 1. -/
theorem axis_init_zero_cex :
    (axisOrientedInit [0, 0, 0]).isOk = true ∧
    Except.map (fun g => euclNorm g.axis) (axisOrientedInit [0, 0, 0]) =
      Except.ok 0 := by
  have h0 : euclNorm [(0:ℝ), 0, 0] = 0 := by
    rw [euclNorm_triple]; simp
  constructor <;>
    simp [axisOrientedInit, h0, Except.isOk, Except.toBool, Except.map,
      euclNorm_triple]

/-- Claim C7 amended: the constructor fails exactly when the input does not
have exactly 3 components (checked after normalization); an accepted input
is stored as the input divided by its Euclidean norm, and when that norm is
nonzero the stored axis has exactly 3 components and unit Euclidean norm. -/
theorem axis_init_spec (axis : List ℝ) :
    ((axisOrientedInit axis).isOk = true ↔ axis.length = 3) ∧
    (∀ g, axisOrientedInit axis = Except.ok g →
      g.axis = axis.map fun t => t / euclNorm axis) ∧
    (euclNorm axis ≠ 0 → ∀ g, axisOrientedInit axis = Except.ok g →
      g.axis.length = 3 ∧ euclNorm g.axis = 1) := by
  refine ⟨?_, ?_, ?_⟩
  · unfold axisOrientedInit
    by_cases h : axis.length = 3 <;> simp [h, Except.isOk, Except.toBool]
  · intro g hg
    simp only [axisOrientedInit] at hg
    split at hg
    · cases Except.ok.inj hg; rfl
    · exact absurd hg (by simp)
  · intro hn g hg
    simp only [axisOrientedInit] at hg
    split at hg
    next hcond =>
      cases Except.ok.inj hg
      exact ⟨by simpa using hcond, euclNorm_normalize axis hn⟩
    next => exact absurd hg (by simp)

theorem axis_init_spec_witness :
    (axisOrientedInit [(0:ℝ), 0, 2]).isOk = true ∧
    Except.map (fun g => euclNorm g.axis) (axisOrientedInit [(0:ℝ), 0, 2]) =
      Except.ok 1 := by
  have h4 : Real.sqrt 4 = 2 := sqrt_val 4 2 (by norm_num) (by norm_num)
  have he : euclNorm [(0:ℝ), 0, 2] = 2 := by
    rw [euclNorm_triple]; norm_num [h4]
  have hne : euclNorm [(0:ℝ), 0, 2] ≠ 0 := by rw [he]; norm_num
  have hok : axisOrientedInit [(0:ℝ), 0, 2] = Except.ok ⟨[0, 0, 1]⟩ := by
    simp [axisOrientedInit, he]
  have h1 := ((axis_init_spec [(0:ℝ), 0, 2]).2.2 hne ⟨[0, 0, 1]⟩ hok).2
  exact ⟨by rw [hok]; rfl, by rw [hok]; simp [Except.map, h1]⟩

/-- Claim C1 (code bug): the batched normalization
`vec /= np.linalg.norm(vec, axis=-1)` does not keep the trailing axis, so
for a stacked `(N, ndim)` displacement array the norms are broadcast along
the wrong axis.  On the batch `[[3, 4], [6, 8]]` (norms `[5, 10]`) entry
`(i, j)` is divided by the norm of row `j`, yielding rows `[3/5, 4/10]` and
`[6/5, 8/10]` — neither of unit Euclidean norm, contradicting the claimed
per-element normalization. -/
theorem det_to_src_batched_normalization_bug :
    normalizeStep [[(3:ℝ), 4], [6, 8]] = some [[3/5, 4/10], [6/5, 8/10]] ∧
    euclNorm [(3:ℝ)/5, 4/10] ≠ 1 ∧ euclNorm [(6:ℝ)/5, 8/10] ≠ 1 := by
  have h34 : euclNorm [(3:ℝ), 4] = 5 :=
    (euclNorm_pair 3 4).trans (sqrt_val _ 5 (by norm_num) (by norm_num))
  have h68 : euclNorm [(6:ℝ), 8] = 10 :=
    (euclNorm_pair 6 8).trans (sqrt_val _ 10 (by norm_num) (by norm_num))
  refine ⟨?_, ?_, ?_⟩
  · unfold normalizeStep
    rw [show (([[(3:ℝ), 4], [6, 8]]).map euclNorm) = [5, 10] by
      simp [h34, h68]]
    simp [broadcastDiv]
  · rw [euclNorm_pair]
    exact sqrt_ne_one _ (by positivity) (by norm_num)
  · rw [euclNorm_pair]
    exact sqrt_ne_one _ (by positivity) (by norm_num)

/-- The Rodrigues matrix written out entrywise. -/
theorem rodrigues_eq (a : Fin 3 → ℝ) (angle : ℝ) :
    rodrigues a angle =
      !![Real.cos angle + (1 - Real.cos angle) * (a 0 * a 0),
         (1 - Real.cos angle) * (a 0 * a 1) - Real.sin angle * a 2,
         (1 - Real.cos angle) * (a 0 * a 2) + Real.sin angle * a 1;
         (1 - Real.cos angle) * (a 1 * a 0) + Real.sin angle * a 2,
         Real.cos angle + (1 - Real.cos angle) * (a 1 * a 1),
         (1 - Real.cos angle) * (a 1 * a 2) - Real.sin angle * a 0;
         (1 - Real.cos angle) * (a 2 * a 0) - Real.sin angle * a 1,
         (1 - Real.cos angle) * (a 2 * a 1) + Real.sin angle * a 0,
         Real.cos angle + (1 - Real.cos angle) * (a 2 * a 2)] := by
  ext i j
  fin_cases i <;> fin_cases j <;>
    simp [rodrigues, id_mat, dy_mat, cross_mat, Matrix.add_apply,
      Matrix.smul_apply, smul_eq_mul, Matrix.vecHead, Matrix.vecTail,
      Matrix.of_apply, Pi.smul_apply] <;> ring

/-- Transposition of a 3×3 matrix literal. -/
theorem transpose_fin3 (a b c d e f g h i : ℝ) :
    (!![a, b, c; d, e, f; g, h, i]).transpose = !![a, d, g; b, e, h; c, f, i] := by
  ext x y
  fin_cases x <;> fin_cases y <;> rfl

/-- For a unit axis, the Rodrigues matrix is orthogonal. -/
theorem rodrigues_orthogonal (a : Fin 3 → ℝ) (angle : ℝ)
    (h : a 0 ^ 2 + a 1 ^ 2 + a 2 ^ 2 = 1) :
    (rodrigues a angle).transpose * rodrigues a angle = 1 := by
  have hp : Real.sin angle ^ 2 + Real.cos angle ^ 2 = 1 := Real.sin_sq_add_cos_sq angle
  rw [rodrigues_eq, transpose_fin3, Matrix.mul_fin_three, Matrix.one_fin_three]
  refine congrArg Matrix.of (Matrix.vec3_eq ?_ ?_ ?_) <;>
    refine Matrix.vec3_eq ?_ ?_ ?_
  · linear_combination ((1 - Real.cos angle) ^ 2 * a 0 * a 0 + Real.sin angle ^ 2) * h +
      (1 - a 0 * a 0) * hp
  · linear_combination ((1 - Real.cos angle) ^ 2 * a 0 * a 1) * h + (-(a 0 * a 1)) * hp
  · linear_combination ((1 - Real.cos angle) ^ 2 * a 0 * a 2) * h + (-(a 0 * a 2)) * hp
  · linear_combination ((1 - Real.cos angle) ^ 2 * a 1 * a 0) * h + (-(a 1 * a 0)) * hp
  · linear_combination ((1 - Real.cos angle) ^ 2 * a 1 * a 1 + Real.sin angle ^ 2) * h +
      (1 - a 1 * a 1) * hp
  · linear_combination ((1 - Real.cos angle) ^ 2 * a 1 * a 2) * h + (-(a 1 * a 2)) * hp
  · linear_combination ((1 - Real.cos angle) ^ 2 * a 2 * a 0) * h + (-(a 2 * a 0)) * hp
  · linear_combination ((1 - Real.cos angle) ^ 2 * a 2 * a 1) * h + (-(a 2 * a 1)) * hp
  · linear_combination ((1 - Real.cos angle) ^ 2 * a 2 * a 2 + Real.sin angle ^ 2) * h +
      (1 - a 2 * a 2) * hp

/-- For a unit axis, the Rodrigues matrix has determinant one. -/
theorem rodrigues_det (a : Fin 3 → ℝ) (angle : ℝ)
    (h : a 0 ^ 2 + a 1 ^ 2 + a 2 ^ 2 = 1) :
    (rodrigues a angle).det = 1 := by
  have hp : Real.sin angle ^ 2 + Real.cos angle ^ 2 = 1 := Real.sin_sq_add_cos_sq angle
  rw [rodrigues_eq, Matrix.det_fin_three]
  norm_num
  linear_combination hp +
    (Real.cos angle ^ 2 * (1 - Real.cos angle) + Real.cos angle * Real.sin angle ^ 2 +
      2 * (1 - Real.cos angle) * Real.sin angle ^ 2 +
      (a 0 ^ 2 + a 1 ^ 2 + a 2 ^ 2 - 1) * (1 - Real.cos angle) * Real.sin angle ^ 2) * h

/-- Claim C3: for every stored axis and every angle in the composing
geometry's motion parameters, `rotation_matrix(angle)` equals
`cos(angle)·I + (1 − cos(angle))·(axis ⊗ axis) + sin(angle)·K`, with `I` the
3×3 identity, `axis ⊗ axis` the outer product and `K` the skew-symmetric
cross-product matrix of the axis with first row `[0, −axis_z, axis_y]`. -/
theorem rotation_matrix_rodrigues (g : AxisOrientedGeometry)
    (motion_params : IntervalProd) (angle : ℝ)
    (h : memS angle motion_params) :
    g.rotation_matrix motion_params angle =
      Except.ok
        (Real.cos angle • (1 : Matrix (Fin 3) (Fin 3) ℝ) +
          (1 - Real.cos angle) • Matrix.vecMulVec (aFun g.axis) (aFun g.axis) +
          Real.sin angle • cross_mat (aFun g.axis)) := by
  unfold AxisOrientedGeometry.rotation_matrix
  rw [if_pos h]
  have h1 : id_mat = (1 : Matrix (Fin 3) (Fin 3) ℝ) := (Matrix.one_fin_three).symm
  have h2 : dy_mat (aFun g.axis) = Matrix.vecMulVec (aFun g.axis) (aFun g.axis) := by
    ext i j
    simp [dy_mat, Matrix.vecMulVec_apply]
  unfold rodrigues
  rw [h1, h2]

theorem rotation_matrix_rodrigues_witness :
    ax001.rotation_matrix mp0 0 =
      Except.ok
        (Real.cos 0 • (1 : Matrix (Fin 3) (Fin 3) ℝ) +
          (1 - Real.cos 0) • Matrix.vecMulVec (aFun ax001.axis) (aFun ax001.axis) +
          Real.sin 0 • cross_mat (aFun ax001.axis)) :=
  rotation_matrix_rodrigues ax001 mp0 0 (by norm_num [memS, mp0])

/-- Claim C4: whenever `rotation_matrix` returns a matrix for a unit stored
axis, that matrix is orthogonal (its transpose times itself is the identity)
and has determinant +1. -/
theorem rotation_matrix_proper (g : AxisOrientedGeometry)
    (motion_params : IntervalProd) (angle : ℝ) (R : Matrix (Fin 3) (Fin 3) ℝ)
    (hunit : aFun g.axis 0 ^ 2 + aFun g.axis 1 ^ 2 + aFun g.axis 2 ^ 2 = 1)
    (hR : g.rotation_matrix motion_params angle = Except.ok R) :
    R.transpose * R = 1 ∧ R.det = 1 := by
  have hrod : R = rodrigues (aFun g.axis) angle := by
    unfold AxisOrientedGeometry.rotation_matrix at hR
    split at hR
    · exact (Except.ok.inj hR).symm
    · exact absurd hR (by simp)
  subst hrod
  exact ⟨rodrigues_orthogonal _ angle hunit, rodrigues_det _ angle hunit⟩

theorem rotation_matrix_proper_witness :
    (rodrigues (aFun ax001.axis) 0).transpose * rodrigues (aFun ax001.axis) 0 = 1 ∧
    (rodrigues (aFun ax001.axis) 0).det = 1 :=
  rotation_matrix_proper ax001 mp0 0 (rodrigues (aFun ax001.axis) 0)
    (by norm_num [ax001, aFun, List.getD])
    (by unfold AxisOrientedGeometry.rotation_matrix
        rw [if_pos (by norm_num [memS, mp0])])

end
